import Mathlib

/-!
Verification of the LinkedIn automation system's core components against a
shallow Lean embedding.

Embedded source files:
* `src/scheduler.py` (`AutomationScheduler`): daily rate limiter / scheduler.
* `src/simple_scheduler.py` (`SimpleScheduler`): the dependency-free variant.
* `src/ai_job_matcher.py` (`AIJobMatcher`): keyword extraction and match scoring.
* `src/enhanced_linkedin_automation.py` (`run_automation_enhanced` /
  `close_session`): the orchestrator's run lifecycle.
* `src/linkedin_automation.py` (`_setup_driver`): ordered-fallback resource
  acquisition.

Modelling conventions:
* Wall-clock instants are absolute minutes since a Monday-midnight epoch
  (`Nat`).  `datetime.strftime('%Y-%m-%d')` dates become `abs / 1440`,
  time-of-day becomes `abs % 1440`, and Python's `weekday()` (Monday = 0)
  becomes `(abs / 1440) % 7`.  The "HH:MM" strings of the configured optimal
  windows are carried as minutes-of-day.
* Python floats are modelled as exact rationals (`ℚ`); `round(x, 2)` is
  modelled as round-half-to-even at two decimals.
* Python dicts with a fixed key set become structures; dicts iterated in
  insertion order become association lists in the source's literal order.
* Side effects (file persistence, logging, the Selenium driver) are dropped or
  made explicit state; functions that consult `datetime.now()` take the
  current instant as an argument.
-/

namespace LIAuto

/-! ## Scheduler model — `src/scheduler.py` and `src/simple_scheduler.py` -/

/-- Absolute minutes → calendar date (`strftime('%Y-%m-%d')` equivalence class). -/
def dateOf (t : Nat) : Nat := t / 1440

/-- Absolute minutes → minutes within the day (`datetime.time()`). -/
def timeOfDay (t : Nat) : Nat := t % 1440

/-- Absolute minutes → Python `weekday()` (Monday = 0 … Sunday = 6). -/
def weekdayOf (t : Nat) : Nat := (t / 1440) % 7

/-- One entry of the `optimal_times` config dict: period name and the
"start"/"end" times in minutes of day (`stop` stands for the `"end"` key,
which is a Lean keyword). -/
structure OptimalWindow where
  period : String
  start : Nat
  stop : Nat
deriving Repr, DecidableEq

/-- The scheduler configuration keys consulted by `can_apply_now` /
`get_next_optimal_time` (`_load_config` defaults omitted; any value allowed). -/
structure SchedulerConfig where
  daily_application_limit : Nat
  optimal_times : List OptimalWindow
  weekdays_only : Bool
  max_session_duration : Nat
  auto_pause_on_limit : Bool
deriving Repr, DecidableEq

/-- The persisted `daily_stats` dict. -/
structure DailyStats where
  current_date : Nat
  applications_sent : Nat
  last_application_time : Option Nat
  session_start_time : Option Nat
  total_session_time : Nat
  paused_until : Option Nat
deriving Repr, DecidableEq

/-- `AutomationScheduler._reset_daily_stats` (also `SimpleScheduler`'s copy):
fresh stats for the day containing `now`. -/
def resetDailyStats (now : Nat) : DailyStats :=
  { current_date := dateOf now
    applications_sent := 0
    last_application_time := none
    session_start_time := none
    total_session_time := 0
    paused_until := none }

/-- `AutomationScheduler._is_optimal_time`: `start <= current_time <= end`
for some configured window (closed interval, OR over windows). -/
def isOptimalTime (cfg : SchedulerConfig) (now : Nat) : Bool :=
  cfg.optimal_times.any fun w =>
    decide (w.start ≤ timeOfDay now ∧ timeOfDay now ≤ w.stop)

/-- The check chain of `AutomationScheduler.can_apply_now` after the new-day
reset and the pause check: daily limit, optimal time, weekday, session
duration. -/
def canApplyChecks (cfg : SchedulerConfig) (stats : DailyStats) (now : Nat) :
    Bool × String :=
  if cfg.daily_application_limit ≤ stats.applications_sent then
    if cfg.auto_pause_on_limit then
      (false, "Daily application limit reached")
    else
      (true, "Daily limit reached but auto-pause disabled")
  else if ¬ isOptimalTime cfg now then
    (false, "Not an optimal time for applications")
  else if cfg.weekdays_only ∧ 5 ≤ weekdayOf now then
    (false, "Weekend - automation disabled")
  else
    match stats.session_start_time with
    | some sessionStart =>
        if (cfg.max_session_duration : Int) < (now : Int) - (sessionStart : Int) then
          (false, "Maximum session duration reached")
        else
          (true, "Ready to apply")
    | none => (true, "Ready to apply")

/-- `AutomationScheduler.can_apply_now`: resets the stats on a date mismatch,
then runs the pause check and `canApplyChecks`.  Returns the (possibly reset)
stats together with the `(bool, reason)` pair. -/
def canApplyNow (cfg : SchedulerConfig) (stats : DailyStats) (now : Nat) :
    DailyStats × Bool × String :=
  let stats1 := if stats.current_date ≠ dateOf now then resetDailyStats now else stats
  let rest :=
    match stats1.paused_until with
    | some pauseUntil =>
        if now < pauseUntil then
          (false, "Automation paused until " ++ toString pauseUntil)
        else
          canApplyChecks cfg stats1 now
    | none => canApplyChecks cfg stats1 now
  (stats1, rest.1, rest.2)

/-- The check chain of `SimpleScheduler.can_apply_now` after the reset and
pause checks: identical to the full scheduler's but with no session-duration
check. -/
def simpleChecks (cfg : SchedulerConfig) (stats : DailyStats) (now : Nat) :
    Bool × String :=
  if cfg.daily_application_limit ≤ stats.applications_sent then
    if cfg.auto_pause_on_limit then
      (false, "Daily application limit reached")
    else
      (true, "Daily limit reached but auto-pause disabled")
  else if ¬ isOptimalTime cfg now then
    (false, "Not an optimal time for applications")
  else if cfg.weekdays_only ∧ 5 ≤ weekdayOf now then
    (false, "Weekend - automation disabled")
  else
    (true, "Ready to apply")

/-- `SimpleScheduler.can_apply_now`. -/
def simpleCanApplyNow (cfg : SchedulerConfig) (stats : DailyStats) (now : Nat) :
    DailyStats × Bool × String :=
  let stats1 := if stats.current_date ≠ dateOf now then resetDailyStats now else stats
  let rest :=
    match stats1.paused_until with
    | some pauseUntil =>
        if now < pauseUntil then
          (false, "Automation paused until " ++ toString pauseUntil)
        else
          simpleChecks cfg stats1 now
    | none => simpleChecks cfg stats1 now
  (stats1, rest.1, rest.2)

/-- `AutomationScheduler.record_application`: unconditionally increments the
counter, stamps the time, starts the session clock if not yet running. -/
def recordApplication (stats : DailyStats) (now : Nat) : DailyStats :=
  { stats with
    applications_sent := stats.applications_sent + 1
    last_application_time := some now
    session_start_time :=
      match stats.session_start_time with
      | none => some now
      | some t => some t }

/-- `AutomationScheduler.pause_automation`. -/
def pauseAutomation (stats : DailyStats) (now : Nat) (durationMinutes : Nat) :
    DailyStats :=
  { stats with paused_until := some (now + durationMinutes) }

/-- `AutomationScheduler.resume_automation`. -/
def resumeAutomation (stats : DailyStats) : DailyStats :=
  { stats with paused_until := none }

/-- The loop of `get_next_optimal_time` over today's windows: return the
window start if `now` is before it, `now` itself if within it. -/
def nextFromWindows : List OptimalWindow → Nat → Option Nat
  | [], _ => none
  | w :: ws, now =>
    if now < dateOf now * 1440 + w.start then
      some (dateOf now * 1440 + w.start)
    else if dateOf now * 1440 + w.start ≤ now ∧ now ≤ dateOf now * 1440 + w.stop then
      some now
    else
      nextFromWindows ws now

/-- Python's `min(items, key=…["start"])`: first window of minimal start
(ties keep the earlier entry), `none` on an empty list (where Python's `min`
raises `ValueError`). -/
def minByStart : List OptimalWindow → Option OptimalWindow
  | [] => none
  | w :: ws => some (ws.foldl (fun best x => if x.start < best.start then x else best) w)

/-- `AutomationScheduler.get_next_optimal_time`; `none` models the
`ValueError` raised by `min` on an empty window list. -/
def getNextOptimalTime (cfg : SchedulerConfig) (now : Nat) : Option Nat :=
  match nextFromWindows cfg.optimal_times now with
  | some t => some t
  | none =>
    match minByStart cfg.optimal_times with
    | some w => some ((dateOf now + 1) * 1440 + w.start)
    | none => none

/-- `AutomationScheduler._get_session_duration` in minutes (signed, as the
Python subtraction of datetimes can be negative). -/
def getSessionDuration (stats : DailyStats) (now : Nat) : Int :=
  match stats.session_start_time with
  | none => 0
  | some sessionStart => (now : Int) - (sessionStart : Int)

/-- The dict returned by `AutomationScheduler.get_daily_progress`. -/
structure DailyProgress where
  applications_sent : Nat
  daily_limit : Nat
  remaining_applications : Nat
  can_apply_now : Bool
  reason : String
  next_optimal_time : Option Nat
  is_paused : Bool
  paused_until : Option Nat
  session_duration : Int
deriving Repr, DecidableEq

/-- `AutomationScheduler.get_daily_progress`: runs `can_apply_now` (which may
reset the stats), then reports from the updated stats.  `none` models the
exception propagated from `get_next_optimal_time` on an empty window list. -/
def getDailyProgress (cfg : SchedulerConfig) (stats : DailyStats) (now : Nat) :
    Option (DailyStats × DailyProgress) :=
  let r := canApplyNow cfg stats now
  let stats1 := r.1
  match getNextOptimalTime cfg now with
  | none => none
  | some nxt =>
    some (stats1,
      { applications_sent := stats1.applications_sent
        daily_limit := cfg.daily_application_limit
        remaining_applications := cfg.daily_application_limit - stats1.applications_sent
        can_apply_now := r.2.1
        reason := r.2.2
        next_optimal_time := some nxt
        is_paused := stats1.paused_until.isSome
        paused_until := stats1.paused_until
        session_duration := getSessionDuration stats1 now })

/-- A sequence of `record_application` calls at the given instants. -/
def applyAll (stats : DailyStats) (ts : List Nat) : DailyStats :=
  ts.foldl recordApplication stats

/-! ## String machinery for `src/ai_job_matcher.py`

Python strings become `List Char` while scanning.  `str.lower()` is
`Char.toLower` (the inputs involved are ASCII), `x in y` is substring
containment, and each `re` pattern used by the matcher is hand-compiled to a
scanner with the same greedy/lazy backtracking behaviour.  `re.findall` /
`re.search` become fuelled left-to-right drivers over the pattern scanners. -/

/-- Python's `\s` class (ASCII part): space, tab, LF, CR, VT, FF. -/
def pyIsSpace (c : Char) : Bool :=
  c = ' ' ∨ c = '\t' ∨ c = '\n' ∨ c = '\r' ∨ c = '\u000B' ∨ c = '\u000C'

/-- `str.lower()`, mapped characterwise over the string's character list. -/
def toLowerStr (s : String) : String := String.mk (s.toList.map Char.toLower)

/-- `str.strip()`: drop leading and trailing whitespace. -/
def pyStrip (s : String) : String :=
  String.mk (((s.toList.dropWhile pyIsSpace).reverse.dropWhile pyIsSpace).reverse)

/-- Match a literal character sequence at the head, returning the rest. -/
def matchLit : List Char → List Char → Option (List Char)
  | [], s => some s
  | _ :: _, [] => none
  | c :: cs, d :: ds => if c = d then matchLit cs ds else none

/-- Python's `needle in hay` substring test. -/
def containsSub (needle : List Char) : List Char → Bool
  | [] => needle.isEmpty
  | c :: rest => needle.isPrefixOf (c :: rest) || containsSub needle rest

/-- Decimal digit run → value (the `int(match)` of a captured `(\d+)`). -/
def digitsToNat (ds : List Char) : Nat :=
  ds.foldl (fun n c => 10 * n + (c.toNat - '0'.toNat)) 0

/-- `re.findall` driver: scan left to right, at each position try the
pattern scanner; a match contributes its capture and scanning resumes after
the match (non-overlapping, leftmost).  Fuel is the remaining length (each of
the compiled patterns consumes at least one character on success). -/
def findAllAux {β : Type} (patAt : List Char → Option (β × List Char)) :
    Nat → List Char → List β
  | 0, _ => []
  | _ + 1, [] => []
  | fuel + 1, c :: rest =>
    match patAt (c :: rest) with
    | some (v, after) => v :: findAllAux patAt fuel after
    | none => findAllAux patAt fuel rest

/-- `re.findall pattern s`, given the pattern's scanner. -/
def findAllMatches {β : Type} (patAt : List Char → Option (β × List Char))
    (s : List Char) : List β :=
  findAllAux patAt s.length s

/-- `re.search` driver: first position where the scanner matches; returns the
whole matched text (`match.group(0)`). -/
def searchGroup0 (patAt : List Char → Option (List Char)) :
    Nat → List Char → Option (List Char)
  | 0, _ => none
  | fuel + 1, s =>
    match patAt s with
    | some rest => some (s.take (s.length - rest.length))
    | none =>
      match s with
      | [] => none
      | _ :: t => searchGroup0 patAt fuel t

/-! ### The four experience regexes of `extract_job_requirements`

Each scanner returns the captured number and the rest of the string after the
whole match.  The greedy sub-patterns (`\d+`, `\+?`, `s?`, `\s*`,
`(?:of\s*)?`) need no backtracking here because no following sub-pattern can
consume the characters they take. -/

/-- `(\d+)\+?\s*years?\s*(?:of\s*)?experience` at the head. -/
def expPat1At (s : List Char) : Option (Nat × List Char) :=
  let p := s.span Char.isDigit
  if p.1.isEmpty then none else
  let r2 := match p.2 with | '+' :: t => t | r => r
  let r3 := r2.dropWhile pyIsSpace
  match matchLit ("year".toList) r3 with
  | none => none
  | some r4 =>
    let r5 := match r4 with | 's' :: t => t | r => r
    let r6 := r5.dropWhile pyIsSpace
    let r7 :=
      match matchLit ("of".toList) r6 with
      | some t => t.dropWhile pyIsSpace
      | none => r6
    match matchLit ("experience".toList) r7 with
    | none => none
    | some r8 => some (digitsToNat p.1, r8)

/-- `(\d+)\+?\s*years?\s*in` at the head. -/
def expPat2At (s : List Char) : Option (Nat × List Char) :=
  let p := s.span Char.isDigit
  if p.1.isEmpty then none else
  let r2 := match p.2 with | '+' :: t => t | r => r
  let r3 := r2.dropWhile pyIsSpace
  match matchLit ("year".toList) r3 with
  | none => none
  | some r4 =>
    let r5 := match r4 with | 's' :: t => t | r => r
    let r6 := r5.dropWhile pyIsSpace
    match matchLit ("in".toList) r6 with
    | none => none
    | some r7 => some (digitsToNat p.1, r7)

/-- `minimum\s*(\d+)\s*years?` at the head. -/
def expPat3At (s : List Char) : Option (Nat × List Char) :=
  match matchLit ("minimum".toList) s with
  | none => none
  | some r1 =>
    let r2 := r1.dropWhile pyIsSpace
    let p := r2.span Char.isDigit
    if p.1.isEmpty then none else
    let r3 := p.2.dropWhile pyIsSpace
    match matchLit ("year".toList) r3 with
    | none => none
    | some r4 =>
      let r5 := match r4 with | 's' :: t => t | r => r
      some (digitsToNat p.1, r5)

/-- `at\s*least\s*(\d+)\s*years?` at the head. -/
def expPat4At (s : List Char) : Option (Nat × List Char) :=
  match matchLit ("at".toList) s with
  | none => none
  | some r0 =>
    let r1 := r0.dropWhile pyIsSpace
    match matchLit ("least".toList) r1 with
    | none => none
    | some r2 =>
      let r3 := r2.dropWhile pyIsSpace
      let p := r3.span Char.isDigit
      if p.1.isEmpty then none else
      let r4 := p.2.dropWhile pyIsSpace
      match matchLit ("year".toList) r4 with
      | none => none
      | some r5 =>
        let r6 := match r5 with | 's' :: t => t | r => r
        some (digitsToNat p.1, r6)

/-! ### The two location regexes

`(?:in|at|located in)\s+([a-zA-Z\s,]+?)(?:\s|,|\.|$)` and
`(?:based in|headquartered in)\s+([a-zA-Z\s,]+?)(?:\s|,|\.|$)`.
The lazy capture stops at the first position where the terminator matches;
the greedy `\s+` backtracks from the longest whitespace run downwards. -/

/-- The `[a-zA-Z\s,]` class. -/
def locClass (c : Char) : Bool :=
  (('a' ≤ c ∧ c ≤ 'z') ∨ ('A' ≤ c ∧ c ≤ 'Z')) || pyIsSpace c || c = ','

/-- The `(?:\s|,|\.)` terminator class (the `$` alternative is handled by the
caller at end of input). -/
def locTerm (c : Char) : Bool :=
  pyIsSpace c || c = ',' || c = '.'

/-- Continue the lazy capture `([a-zA-Z\s,]+?)(?:\s|,|\.|$)` after at least
one captured character (in `acc`, reversed): stop as soon as the terminator
matches, else extend the capture. -/
def lazyCaptureGo (acc : List Char) : List Char → Option (List Char × List Char)
  | [] => some (acc.reverse, [])
  | d :: rest =>
    if locTerm d then some (acc.reverse, rest)
    else if locClass d then lazyCaptureGo (d :: acc) rest
    else none

/-- The lazy capture plus terminator, returning (captured text, rest after
the whole match). -/
def lazyCapture : List Char → Option (List Char × List Char)
  | [] => none
  | c :: rest => if locClass c then lazyCaptureGo [c] rest else none

/-- Backtrack over the length of the `\s+` run (longest first, per greedy
semantics): try the capture after consuming `i` whitespace characters. -/
def locTryWs (s : List Char) : Nat → Option (String × List Char)
  | 0 => none
  | i + 1 =>
    match lazyCapture (s.drop (i + 1)) with
    | some (cap, rest) => some (String.mk cap, rest)
    | none => locTryWs s i

/-- `\s+([a-zA-Z\s,]+?)(?:\s|,|\.|$)` after one of the literal alternatives. -/
def locAfterLit (s : List Char) : Option (String × List Char) :=
  let m := (s.takeWhile pyIsSpace).length
  if m = 0 then none else locTryWs s m

/-- First location pattern at the head; the literal alternatives `in`, `at`,
`located in` are tried in order (their first characters are distinct, so no
backtracking across alternatives is possible). -/
def locPat1At (s : List Char) : Option (String × List Char) :=
  match matchLit ("in".toList) s with
  | some r => locAfterLit r
  | none =>
    match matchLit ("at".toList) s with
    | some r => locAfterLit r
    | none =>
      match matchLit ("located in".toList) s with
      | some r => locAfterLit r
      | none => none

/-- Second location pattern at the head (`based in` / `headquartered in`). -/
def locPat2At (s : List Char) : Option (String × List Char) :=
  match matchLit ("based in".toList) s with
  | some r => locAfterLit r
  | none =>
    match matchLit ("headquartered in".toList) s with
    | some r => locAfterLit r
    | none => none

/-! ### The three salary regexes

`\$(\d+(?:,\d{3})*(?:k|k\+)?)\s*(?:-|to|–)\s*\$(\d+(?:,\d{3})*(?:k|k\+)?)`,
`salary[:\s]*\$(\d+(?:,\d{3})*(?:k|k\+)?)` and the same with `compensation`.
Only `match.group(0)` is used, so the scanners return the rest after the
whole match and the driver reconstructs the matched text.  The starred comma
group and the optional `k`/`k+` backtrack against their continuation. -/

/-- `(?:k|k\+)?` with continuation: try the `k` branch, then `k+`, then
nothing (greedy optional, alternatives in source order). -/
def kOpt (cont : List Char → Option (List Char)) (s : List Char) :
    Option (List Char) :=
  match s with
  | 'k' :: '+' :: rest => cont ('+' :: rest) <|> cont rest <|> cont s
  | 'k' :: rest => cont rest <|> cont s
  | _ => cont s

/-- `(?:,\d{3})*(?:k|k\+)?` with continuation: greedily take another `,ddd`
group, backtracking to fewer groups if the continuation fails. -/
def commaGroups (cont : List Char → Option (List Char)) :
    Nat → List Char → Option (List Char)
  | 0, s => kOpt cont s
  | fuel + 1, s =>
    match s with
    | ',' :: d1 :: d2 :: d3 :: rest =>
      if d1.isDigit ∧ d2.isDigit ∧ d3.isDigit then
        match commaGroups cont fuel rest with
        | some r => some r
        | none => kOpt cont s
      else kOpt cont s
    | _ => kOpt cont s

/-- `\d+(?:,\d{3})*(?:k|k\+)?` with continuation (the salary number group;
`\d+` is greedy and nothing after it can consume a digit). -/
def salNumAt (cont : List Char → Option (List Char)) (s : List Char) :
    Option (List Char) :=
  let p := s.span Char.isDigit
  if p.1.isEmpty then none else commaGroups cont p.2.length p.2

/-- The salary range pattern at the head. -/
def salPat1At (s : List Char) : Option (List Char) :=
  match s with
  | '$' :: r =>
    salNumAt (fun r1 =>
      let r2 := r1.dropWhile pyIsSpace
      let sep : Option (List Char) :=
        match r2 with
        | '-' :: t => some t
        | 't' :: 'o' :: t => some t
        | '–' :: t => some t
        | _ => none
      match sep with
      | none => none
      | some r3 =>
        match r3.dropWhile pyIsSpace with
        | '$' :: r5 => salNumAt some r5
        | _ => none) r
  | _ => none

/-- `salary[:\s]*\$(…)` at the head. -/
def salPat2At (s : List Char) : Option (List Char) :=
  match matchLit ("salary".toList) s with
  | none => none
  | some r1 =>
    match r1.dropWhile (fun c => c = ':' || pyIsSpace c) with
    | '$' :: r2 => salNumAt some r2
    | _ => none

/-- `compensation[:\s]*\$(…)` at the head. -/
def salPat3At (s : List Char) : Option (List Char) :=
  match matchLit ("compensation".toList) s with
  | none => none
  | some r1 =>
    match r1.dropWhile (fun c => c = ':' || pyIsSpace c) with
    | '$' :: r2 => salNumAt some r2
    | _ => none

/-- The salary loop of `extract_job_requirements`: `re.search` each pattern
in order, keep the first `group(0)`. -/
def salarySearch (s : List Char) : Option String :=
  match searchGroup0 salPat1At (s.length + 1) s with
  | some m => some (String.mk m)
  | none =>
    match searchGroup0 salPat2At (s.length + 1) s with
    | some m => some (String.mk m)
    | none =>
      match searchGroup0 salPat3At (s.length + 1) s with
      | some m => some (String.mk m)
      | none => none

/-! ## Data model and extraction — `src/ai_job_matcher.py` -/

/-- `UserProfile` dataclass (`experience_years` is a signed `int` in the
source, with no validation anywhere, so it is modelled as `ℤ`). -/
structure UserProfile where
  skills : List String
  experience_years : Int
  education : List String
  certifications : List String
  preferred_industries : List String
  preferred_locations : List String
  salary_expectation : Option Nat
  remote_preference : Bool
  company_size_preference : String
deriving Repr, DecidableEq

/-- `AIJobMatcher._load_skill_keywords`, in dict insertion order. -/
def skill_keywords : List (String × List String) :=
  [("programming",
    ["python", "java", "javascript", "typescript", "c++", "c#", "go", "rust",
     "php", "ruby", "swift", "kotlin", "scala", "r", "matlab", "sql"]),
   ("data_science",
    ["machine learning", "deep learning", "artificial intelligence", "ai",
     "data analysis", "statistics", "pandas", "numpy", "scikit-learn",
     "tensorflow", "pytorch", "keras", "spark", "hadoop", "tableau",
     "power bi", "excel", "r", "python", "sql"]),
   ("web_development",
    ["html", "css", "javascript", "react", "angular", "vue", "node.js",
     "express", "django", "flask", "spring", "laravel", "php", "ruby on rails",
     "api", "rest", "graphql", "microservices", "docker", "kubernetes"]),
   ("cloud",
    ["aws", "azure", "gcp", "google cloud", "amazon web services",
     "docker", "kubernetes", "terraform", "ansible", "jenkins",
     "ci/cd", "devops", "microservices", "serverless", "lambda"]),
   ("databases",
    ["mysql", "postgresql", "mongodb", "redis", "elasticsearch",
     "oracle", "sql server", "sqlite", "cassandra", "dynamodb"]),
   ("soft_skills",
    ["leadership", "communication", "teamwork", "problem solving",
     "project management", "agile", "scrum", "mentoring", "presentation"])]

/-- The education keyword list of `extract_job_requirements`. -/
def education_keywords : List String :=
  ["bachelor", "master", "phd", "degree", "diploma", "certification"]

/-- The remote-work indicator list of `extract_job_requirements`. -/
def remote_indicators : List String :=
  ["remote", "work from home", "wfh", "distributed", "virtual"]

/-- The dict returned by `extract_job_requirements`. -/
structure JobRequirements where
  skills : List (String × List String)
  min_experience : Nat
  education_required : List String
  locations : List String
  is_remote : Bool
  salary_range : Option String
  full_text : String
deriving Repr, DecidableEq

/-- The concatenated `re.findall` results of the four experience patterns. -/
def experienceYears (chars : List Char) : List Nat :=
  findAllMatches expPat1At chars ++ findAllMatches expPat2At chars ++
  findAllMatches expPat3At chars ++ findAllMatches expPat4At chars

/-- `AIJobMatcher.extract_job_requirements`. -/
def extract_job_requirements (jobDescription : String) : JobRequirements :=
  let chars := (toLowerStr jobDescription).toList
  { skills := skill_keywords.map fun cs =>
      (cs.1, cs.2.filter fun sk => containsSub sk.toList chars)
    min_experience := (experienceYears chars).foldl Nat.max 0
    education_required :=
      education_keywords.filter fun e => containsSub e.toList chars
    locations :=
      ((findAllMatches locPat1At chars).map pyStrip) ++
      ((findAllMatches locPat2At chars).map pyStrip)
    is_remote := remote_indicators.any fun i => containsSub i.toList chars
    salary_range := salarySearch chars
    full_text := jobDescription }

/-! ## Scoring — `AIJobMatcher.calculate_match_score` -/

/-- The skills loop of `calculate_match_score` over the extracted category
dict: returns `(skill_score, total_skills, reasons, missing_skills)`
accumulated in category order (empty categories are skipped entirely). -/
def skillFold (userSkills : List String) :
    List (String × List String) → ℚ × Nat × List String × List String
  | [] => (0, 0, [], [])
  | (category, required) :: rest =>
    if required.isEmpty then skillFold userSkills rest
    else
      let matched := (required.filter fun sk => userSkills.contains sk).length
      let catMissing := required.filter fun sk => ¬ userSkills.contains sk
      let acc := skillFold userSkills rest
      let catScore : ℚ :=
        if 0 < matched then ((matched : ℚ) / (required.length : ℚ)) * (required.length : ℚ)
        else 0
      let catReasons :=
        if 0 < matched then
          ["Matched " ++ toString matched ++ "/" ++ toString required.length ++
           " " ++ category ++ " skills"]
        else []
      (catScore + acc.1, required.length + acc.2.1,
       catReasons ++ acc.2.2.1, catMissing ++ acc.2.2.2)

/-- The `skill_match_percentage` entering the weighted total: the loop total
scaled to 0–100, and 0 when no skills were required at all. -/
def skillMatchPercentageOf (profile : UserProfile) (r : JobRequirements) : ℚ :=
  let acc := skillFold (profile.skills.map toLowerStr) r.skills
  if 0 < acc.2.1 then acc.1 / (acc.2.1 : ℚ) * 100 else 0

/-- The experience block of `calculate_match_score` (score, reason); the
profile years are a signed `int`, the extracted minimum a digit-run value. -/
def experienceScore (years : Int) (minExperience : Nat) : ℚ × String :=
  if (minExperience : Int) ≤ years then
    (100, "Meets experience requirement (" ++ toString years ++ " years)")
  else
    ((if 0 < minExperience then (years : ℚ) / (minExperience : ℚ) * 100 else 100),
     "Below experience requirement (" ++ toString years ++ "/" ++
       toString minExperience ++ " years)")

/-- The education block of `calculate_match_score` (score, reason). -/
def educationScore (education educationRequired : List String) : ℚ × String :=
  if educationRequired.isEmpty then
    (100, "No specific education requirements")
  else
    let joined := String.intercalate " " (education.map toLowerStr)
    if educationRequired.any (fun req => containsSub req.toList joined.toList) then
      (100, "Meets education requirements")
    else
      (50, "May not meet education requirements")

/-- The location block of `calculate_match_score` (score, appended reasons;
the neutral branch appends no reason). -/
def locationScore (r : JobRequirements) (profile : UserProfile) :
    ℚ × List String :=
  if r.is_remote && profile.remote_preference then
    (100, ["Remote work preference matched"])
  else if ¬ r.is_remote ∧ ¬ profile.preferred_locations.isEmpty then
    let joined := String.intercalate " " (r.locations.map toLowerStr)
    if profile.preferred_locations.any
        (fun l => containsSub (toLowerStr l).toList joined.toList) then
      (100, ["Location preference matched"])
    else
      (50, ["Location may not match preferences"])
  else
    (75, [])

/-- The industry block of `calculate_match_score` (score, appended reasons;
note the source compares the preferred industries verbatim against the
lower-cased description). -/
def industryScore (r : JobRequirements) (profile : UserProfile) :
    ℚ × List String :=
  if ¬ profile.preferred_industries.isEmpty then
    let descLower := toLowerStr r.full_text
    if profile.preferred_industries.any
        (fun i => containsSub i.toList descLower.toList) then
      (100, ["Industry preference matched"])
    else
      (50, ["Industry may not match preferences"])
  else
    (75, [])

/-- Round half to even (CPython's `round` tie-breaking). -/
def roundHalfEven (x : ℚ) : ℤ :=
  if x - ⌊x⌋ = 1/2 then (if ⌊x⌋ % 2 = 0 then ⌊x⌋ else ⌊x⌋ + 1)
  else round x

/-- Python's `round(x, 2)` over the exact-rational float model. -/
def pyRound2 (x : ℚ) : ℚ := (roundHalfEven (x * 100) : ℚ) / 100

/-- `AIJobMatcher.calculate_match_score`: weighted total (skills 40 %,
experience 25 %, education 15 %, location 10 %, industry 10 %), the reason
list, and the missing-skill list. -/
def calculate_match_score (profile : UserProfile) (r : JobRequirements) :
    ℚ × List String × List String :=
  let acc := skillFold (profile.skills.map toLowerStr) r.skills
  let skillMatchPercentage := skillMatchPercentageOf profile r
  let experience := experienceScore profile.experience_years r.min_experience
  let education := educationScore profile.education r.education_required
  let location := locationScore r profile
  let industry := industryScore r profile
  let totalScore :=
    skillMatchPercentage * (0.4 : ℚ) + experience.1 * (0.25 : ℚ) +
    education.1 * (0.15 : ℚ) + location.1 * (0.1 : ℚ) + industry.1 * (0.1 : ℚ)
  (pyRound2 totalScore,
   acc.2.2.1 ++ [experience.2, education.2] ++ location.2 ++ industry.2,
   acc.2.2.2)

/-- `AIJobMatcher.generate_recommendations`. -/
def generate_recommendations (profile : UserProfile) (r : JobRequirements)
    (missingSkills : List String) : List String :=
  (if ¬ missingSkills.isEmpty then
    ["Consider learning: " ++ String.intercalate ", " (missingSkills.take 3)]
  else []) ++
  (if profile.experience_years < (r.min_experience : Int) then
    ["Gain " ++ toString ((r.min_experience : Int) - profile.experience_years) ++
     " more years of experience or highlight relevant projects"]
  else []) ++
  (if ¬ r.education_required.isEmpty ∧
      ¬ r.education_required.any (fun req => containsSub req.toList
        (String.intercalate " " (profile.education.map toLowerStr)).toList) then
    ["Consider highlighting relevant certifications or equivalent experience"]
  else []) ++
  (if r.skills.any (fun c =>
      (["programming", "web_development", "data_science"] : List String).contains c.1) then
    ["Ensure your portfolio/GitHub profile is up to date"]
  else []) ++
  ["Research the company and connect with current employees on LinkedIn"]

/-- The Scenario A profile: skills python and sql, four years of
experience, no other preferences. -/
def scenarioAProfile : UserProfile :=
  { skills := ["python", "sql"], experience_years := 4, education := [],
    certifications := [], preferred_industries := [], preferred_locations := [],
    salary_expectation := none, remote_preference := false,
    company_size_preference := "" }

/-- A Scenario A posting description: requires python and java (programming
category) and states a three-year experience requirement. -/
def scenarioADescription : String := "python and java. 3 years of experience"

/-- A profile exercising the signed `experience_years` dataclass field with
a negative value (the source never validates it). -/
def negativeYearsProfile : UserProfile :=
  { skills := [], experience_years := -100, education := [],
    certifications := [], preferred_industries := [], preferred_locations := [],
    salary_expectation := none, remote_preference := false,
    company_size_preference := "" }

/-- A posting description stating a ten-year experience requirement. -/
def tenYearsDescription : String := "10 years of experience"

/-! ## Ordered-fallback resource acquisition — `src/linkedin_automation.py`

`LinkedInAutomation._setup_driver` iterates its `approaches` list (name plus
strategy); a strategy either constructs a driver or raises.  The loop takes
the first success and stops; when every approach failed it raises the
exhaustion error.  The model precomputes each strategy's outcome. -/

/-- Outcome of one acquisition strategy: a constructed resource or the
message of the exception it raised. -/
inductive AttemptOutcome (α : Type) where
  | success (resource : α)
  | failure (msg : String)
deriving Repr, DecidableEq

/-- Whether a strategy outcome is a raised exception. -/
def AttemptOutcome.isFailure {α : Type} : AttemptOutcome α → Bool
  | .failure _ => true
  | .success _ => false

/-- The `for approach_name, service_func in approaches` loop: first success
wins, later entries untouched. -/
def setupDriverLoop {α : Type} : List (String × AttemptOutcome α) → Option α
  | [] => none
  | (_, .success d) :: _ => some d
  | (_, .failure _) :: rest => setupDriverLoop rest

/-- The approach names the loop actually tries (everything up to and
including the first success). -/
def attemptedApproaches {α : Type} : List (String × AttemptOutcome α) → List String
  | [] => []
  | (nm, .success _) :: _ => [nm]
  | (nm, .failure _) :: rest => nm :: attemptedApproaches rest

/-- `_setup_driver`: the loop followed by the exhaustion check
(`raise Exception(…)` when no approach produced a driver). -/
def setup_driver {α : Type} (approaches : List (String × AttemptOutcome α)) :
    Except String α :=
  match setupDriverLoop approaches with
  | some d => .ok d
  | none => .error "All ChromeDriver approaches failed - please update Chrome or ChromeDriver"

/-! ## Orchestrator run lifecycle — `src/enhanced_linkedin_automation.py`

`run_automation_enhanced` wraps its body in `try/except/finally`; the
`finally` block calls `close_session` on every exit path.  The model makes
the browser capability explicit (`Session.driver`) and precomputes the
outcome of each externally-effectful stage in a `RunEnv`: each stage either
returns a value or raises.  A job listing carries the outcome of applying to
it and the scheduler's verdict checked right after. -/

/-- The browser capability; `quitted` records that `driver.quit()` ran. -/
structure Driver where
  quitted : Bool
deriving Repr, DecidableEq

/-- The orchestrator's session state: the `self.driver` field. -/
structure Session where
  driver : Option Driver
deriving Repr, DecidableEq

/-- Outcome of one stage call: normal return or a raised exception. -/
inductive StageResult (α : Type) where
  | ok (a : α)
  | raised (msg : String)
deriving Repr, DecidableEq

/-- One extracted job in the apply loop: the outcome of
`apply_to_job_enhanced` and the `scheduler.can_apply_now()[0]` verdict
checked after it. -/
structure JobStep where
  applyResult : StageResult Bool
  canContinue : Bool
deriving Repr, DecidableEq

/-- The outcomes of the run's externally-effectful stages. -/
structure RunEnv where
  setupDriver : StageResult Unit
  login : StageResult Bool
  searchJobs : StageResult Bool
  jobListings : StageResult (List JobStep)
deriving Repr, DecidableEq

/-- The run's reported result: an error dict or the summary dict. -/
inductive RunResult where
  | failure (error : String)
  | success (jobsFound applicationsSent : Nat)
deriving Repr, DecidableEq

/-- `start_session`: acquires the driver inside its own `try/except`; on an
exception it returns `False` leaving the session unchanged. -/
def start_session (env : RunEnv) (s : Session) : Session × Bool :=
  match env.setupDriver with
  | .ok _ => ({ driver := some { quitted := false } }, true)
  | .raised _ => (s, false)

/-- `close_session`: `if self.driver: self.driver.quit()` (its own
exceptions swallowed); the field keeps referencing the quit driver. -/
def close_session (s : Session) : Session :=
  match s.driver with
  | some _ => { driver := some { quitted := true } }
  | none => s

/-- The `for job in jobs` apply loop: count successful applications, break
when the scheduler denies, propagate a raised exception. -/
def applyLoop : List JobStep → Except String Nat
  | [] => .ok 0
  | step :: rest =>
    match step.applyResult with
    | .raised e => .error e
    | .ok applied =>
      if step.canContinue then
        match applyLoop rest with
        | .ok n => .ok ((if applied then 1 else 0) + n)
        | .error e => .error e
      else .ok (if applied then 1 else 0)

/-- The `try` body of `run_automation_enhanced`: early returns become
`.ok (failure …)`, raised exceptions become `.error`. -/
def runBody (env : RunEnv) (s : Session) : Except String RunResult × Session :=
  let started := start_session env s
  if ¬ started.2 then (.ok (.failure "Failed to start session"), started.1)
  else
    match env.login with
    | .raised e => (.error e, started.1)
    | .ok false => (.ok (.failure "Failed to login"), started.1)
    | .ok true =>
      match env.searchJobs with
      | .raised e => (.error e, started.1)
      | .ok false => (.ok (.failure "Failed to search jobs"), started.1)
      | .ok true =>
        match env.jobListings with
        | .raised e => (.error e, started.1)
        | .ok jobs =>
          if jobs.isEmpty then (.ok (.failure "No jobs found"), started.1)
          else
            match applyLoop jobs with
            | .error e => (.error e, started.1)
            | .ok n => (.ok (.success jobs.length n), started.1)

/-- `run_automation_enhanced`: run the body, map a raised exception to the
error dict (the `except` clause), and close the session in the `finally`
block on every path. -/
def run_automation_enhanced (env : RunEnv) (s : Session) : RunResult × Session :=
  let bodyRun := runBody env s
  let result :=
    match bodyRun.1 with
    | .ok r => r
    | .error e => .failure e
  (result, close_session bodyRun.2)

/-! ## Helper lemmas (shared) -/

/-- When the persisted date matches the wall-clock date, `can_apply_now`
leaves the stats untouched. -/
theorem canApplyNow_fst_of_date_eq (cfg : SchedulerConfig) (stats : DailyStats)
    (now : Nat) (h : stats.current_date = dateOf now) :
    (canApplyNow cfg stats now).1 = stats := by
  simp [canApplyNow, h]

/-- `record_application` adds exactly one to the counter over a call list. -/
theorem applyAll_applications_sent (ts : List Nat) (s : DailyStats) :
    (applyAll s ts).applications_sent = s.applications_sent + ts.length := by
  induction ts generalizing s with
  | nil => simp [applyAll]
  | cons t ts ih =>
    have : applyAll s (t :: ts) = applyAll (recordApplication s t) ts := rfl
    rw [this, ih, recordApplication]
    simp
    omega

/-- `record_application` never touches the stored date. -/
theorem applyAll_current_date (ts : List Nat) (s : DailyStats) :
    (applyAll s ts).current_date = s.current_date := by
  induction ts generalizing s with
  | nil => rfl
  | cons t ts ih =>
    have : applyAll s (t :: ts) = applyAll (recordApplication s t) ts := rfl
    rw [this, ih]
    rfl

/-- With at least one configured window, `get_next_optimal_time` never
raises. -/
theorem getNextOptimalTime_isSome (cfg : SchedulerConfig) (now : Nat)
    (h : cfg.optimal_times ≠ []) : ∃ t, getNextOptimalTime cfg now = some t := by
  unfold getNextOptimalTime
  cases hn : nextFromWindows cfg.optimal_times now with
  | some t => exact ⟨t, rfl⟩
  | none =>
    obtain ⟨w, ws, hw⟩ := List.exists_cons_of_ne_nil h
    rw [hw]
    exact ⟨_, rfl⟩

/-- Per-category skill contribution: the guarded `(matched/required)*required`
term is just the matched count. -/
theorem skill_cat_score_eq (m n : Nat) (hn : 0 < n) :
    (if 0 < m then ((m : ℚ) / (n : ℚ)) * (n : ℚ) else 0) = (m : ℚ) := by
  split
  · rw [div_mul_cancel₀]
    exact Nat.cast_ne_zero.mpr (Nat.pos_iff_ne_zero.mp hn)
  · rename_i h
    have hm : m = 0 := by omega
    simp [hm]

/-- The skills loop accumulates a score between 0 and the required-skill
count. -/
theorem skillFold_bounds (userSkills : List String)
    (cats : List (String × List String)) :
    0 ≤ (skillFold userSkills cats).1 ∧
    (skillFold userSkills cats).1 ≤ ((skillFold userSkills cats).2.1 : ℚ) := by
  induction cats with
  | nil => simp [skillFold]
  | cons c rest ih =>
    obtain ⟨cat, required⟩ := c
    obtain ⟨ih0, ih1⟩ := ih
    by_cases hreq : required.isEmpty
    · simpa [skillFold, hreq] using ⟨ih0, ih1⟩
    · have hn : 0 < required.length := by
        cases required with
        | nil => simp at hreq
        | cons a l => simp
      have hmle : (required.filter fun sk => userSkills.contains sk).length ≤
          required.length := List.length_filter_le _ _
      have hcast : (((required.filter fun sk => userSkills.contains sk).length : ℕ) : ℚ) ≤
          ((required.length : ℕ) : ℚ) := by exact_mod_cast hmle
      have hm0 : (0 : ℚ) ≤
          (((required.filter fun sk => userSkills.contains sk).length : ℕ) : ℚ) := by
        positivity
      have hreq' : required.isEmpty = false := by
        simpa using hreq
      simp only [skillFold, hreq', Bool.false_eq_true, if_false]
      rw [skill_cat_score_eq _ _ hn]
      refine ⟨by linarith, ?_⟩
      push_cast
      linarith

/-- The skills sub-score lies in [0, 100]. -/
theorem skillMatchPercentage_bounds (profile : UserProfile) (r : JobRequirements) :
    0 ≤ skillMatchPercentageOf profile r ∧ skillMatchPercentageOf profile r ≤ 100 := by
  obtain ⟨h0, h1⟩ := skillFold_bounds (profile.skills.map toLowerStr) r.skills
  unfold skillMatchPercentageOf
  dsimp only
  split
  · rename_i ht
    have htq : (0 : ℚ) < ((skillFold (profile.skills.map toLowerStr) r.skills).2.1 : ℚ) := by
      exact_mod_cast ht
    constructor
    · positivity
    · have hdiv : (skillFold (profile.skills.map toLowerStr) r.skills).1 /
          ((skillFold (profile.skills.map toLowerStr) r.skills).2.1 : ℚ) ≤ 1 :=
        (div_le_one htq).mpr h1
      nlinarith
  · exact ⟨le_refl 0, by norm_num⟩

/-- The experience sub-score never exceeds 100 (it can go below 0 when the
signed profile years are negative). -/
theorem experienceScore_le_100 (years : Int) (minExperience : Nat) :
    (experienceScore years minExperience).1 ≤ 100 := by
  unfold experienceScore
  split
  · norm_num
  · rename_i h
    split
    · rename_i hm
      have hym : years ≤ (minExperience : Int) := by omega
      have hymq : (years : ℚ) ≤ (minExperience : ℚ) := by exact_mod_cast hym
      have hmq : (0 : ℚ) < (minExperience : ℚ) := by exact_mod_cast hm
      have hdiv : (years : ℚ) / (minExperience : ℚ) ≤ 1 := (div_le_one hmq).mpr hymq
      nlinarith
    · norm_num

/-- With non-negative profile years the experience sub-score is
non-negative. -/
theorem experienceScore_nonneg (years : Int) (minExperience : Nat)
    (hy : 0 ≤ years) : 0 ≤ (experienceScore years minExperience).1 := by
  unfold experienceScore
  split
  · norm_num
  · split
    · rename_i hm
      have hyq : (0 : ℚ) ≤ (years : ℚ) := by exact_mod_cast hy
      have hmq : (0 : ℚ) < (minExperience : ℚ) := by exact_mod_cast hm
      exact mul_nonneg (div_nonneg hyq hmq.le) (by norm_num)
    · norm_num

/-- The education sub-score lies in [0, 100]. -/
theorem educationScore_bounds (education educationRequired : List String) :
    0 ≤ (educationScore education educationRequired).1 ∧
    (educationScore education educationRequired).1 ≤ 100 := by
  unfold educationScore
  dsimp only
  split
  · norm_num
  · split <;> norm_num

/-- The location sub-score lies in [0, 100]. -/
theorem locationScore_bounds (r : JobRequirements) (profile : UserProfile) :
    0 ≤ (locationScore r profile).1 ∧ (locationScore r profile).1 ≤ 100 := by
  unfold locationScore
  dsimp only
  split
  · norm_num
  · split
    · split <;> norm_num
    · norm_num

/-- The industry sub-score lies in [0, 100]. -/
theorem industryScore_bounds (r : JobRequirements) (profile : UserProfile) :
    0 ≤ (industryScore r profile).1 ∧ (industryScore r profile).1 ≤ 100 := by
  unfold industryScore
  dsimp only
  split
  · split <;> norm_num
  · norm_num

/-- Round-half-to-even moves a value by at most 1/2. -/
theorem roundHalfEven_close (x : ℚ) :
    x - 1/2 ≤ (roundHalfEven x : ℚ) ∧ (roundHalfEven x : ℚ) ≤ x + 1/2 := by
  unfold roundHalfEven
  split
  · rename_i hhalf
    have hfloor : (⌊x⌋ : ℚ) = x - 1/2 := by linarith
    split
    · rw [hfloor]
      constructor <;> linarith
    · push_cast
      rw [hfloor]
      constructor <;> linarith
  · have h := abs_le.mp (abs_sub_round x)
    constructor <;> linarith [h.1, h.2]

/-- `round(x, 2)` cannot push a value above 100. -/
theorem pyRound2_le_100 (x : ℚ) (h1 : x ≤ 100) : pyRound2 x ≤ 100 := by
  obtain ⟨ha, hb⟩ := roundHalfEven_close (x * 100)
  unfold pyRound2
  have hhigh : (roundHalfEven (x * 100) : ℚ) < 10001 := by linarith
  have hhigh' : roundHalfEven (x * 100) ≤ 10000 := by
    have : roundHalfEven (x * 100) < (10001 : ℤ) := by exact_mod_cast hhigh
    omega
  have : (roundHalfEven (x * 100) : ℚ) ≤ 10000 := by exact_mod_cast hhigh'
  linarith

/-- `round(x, 2)` cannot push a non-negative value below 0. -/
theorem pyRound2_nonneg (x : ℚ) (h0 : 0 ≤ x) : 0 ≤ pyRound2 x := by
  obtain ⟨ha, hb⟩ := roundHalfEven_close (x * 100)
  unfold pyRound2
  have hlow : (-1 : ℚ) < (roundHalfEven (x * 100) : ℚ) := by linarith
  have hlow' : 0 ≤ roundHalfEven (x * 100) := by
    have : (-1 : ℤ) < roundHalfEven (x * 100) := by exact_mod_cast hlow
    omega
  have : (0 : ℚ) ≤ (roundHalfEven (x * 100) : ℚ) := by exact_mod_cast hlow'
  linarith

/-- The weighted total never exceeds 100, for every profile (negative years
included) and every requirements value. -/
theorem calculate_match_score_le_100 (profile : UserProfile)
    (r : JobRequirements) : (calculate_match_score profile r).1 ≤ 100 := by
  obtain ⟨s0, s1⟩ := skillMatchPercentage_bounds profile r
  have e1 := experienceScore_le_100 profile.experience_years r.min_experience
  obtain ⟨d0, d1⟩ := educationScore_bounds profile.education r.education_required
  obtain ⟨l0, l1⟩ := locationScore_bounds r profile
  obtain ⟨i0, i1⟩ := industryScore_bounds r profile
  unfold calculate_match_score
  simp only
  apply pyRound2_le_100
  norm_num
  linarith

/-- With non-negative profile years the weighted total is non-negative. -/
theorem calculate_match_score_nonneg (profile : UserProfile)
    (r : JobRequirements) (hy : 0 ≤ profile.experience_years) :
    0 ≤ (calculate_match_score profile r).1 := by
  obtain ⟨s0, s1⟩ := skillMatchPercentage_bounds profile r
  have e0 := experienceScore_nonneg profile.experience_years r.min_experience hy
  obtain ⟨d0, d1⟩ := educationScore_bounds profile.education r.education_required
  obtain ⟨l0, l1⟩ := locationScore_bounds r profile
  obtain ⟨i0, i1⟩ := industryScore_bounds r profile
  unfold calculate_match_score
  simp only
  apply pyRound2_nonneg
  norm_num
  linarith

/-! ## Claim theorems -/

/-- C2: when the persisted date differs from the wall-clock date, the first
`can_apply_now` call resets the counter to 0 and clears
`last_application_time`, `session_start_time` and `paused_until` before any
deny condition is evaluated (the evaluation proceeds exactly as from the
freshly reset state); when the dates agree the stats are left untouched, and
none of the other limiter operations (`record_application`,
`pause_automation`, `resume_automation`) can reset the counter. -/
theorem canApplyNow_new_day_resets (cfg : SchedulerConfig)
    (stats other : DailyStats) (now : Nat)
    (hdate : stats.current_date ≠ dateOf now) :
    (canApplyNow cfg stats now).1 = resetDailyStats now ∧
    canApplyNow cfg stats now = canApplyNow cfg (resetDailyStats now) now ∧
    (resetDailyStats now).applications_sent = 0 ∧
    (resetDailyStats now).last_application_time = none ∧
    (resetDailyStats now).session_start_time = none ∧
    (resetDailyStats now).paused_until = none ∧
    (other.current_date = dateOf now → (canApplyNow cfg other now).1 = other) ∧
    (∀ s t, (recordApplication s t).applications_sent = s.applications_sent + 1) ∧
    (∀ s t d, (pauseAutomation s t d).applications_sent = s.applications_sent) ∧
    (∀ s, (resumeAutomation s).applications_sent = s.applications_sent) := by
  refine ⟨?_, ?_, rfl, rfl, rfl, rfl, ?_, fun s t => rfl, fun s t d => rfl, fun s => rfl⟩
  · simp [canApplyNow, hdate]
  · simp [canApplyNow, hdate, resetDailyStats]
  · intro h
    exact canApplyNow_fst_of_date_eq cfg other now h

/-- C2 witness: persisted state dated day 1 with 7 applications sent, first
call on day 2. -/
theorem canApplyNow_new_day_resets_witness :
    (canApplyNow ⟨10, [⟨"morning", 540, 660⟩], true, 120, true⟩
        ⟨1, 7, some 2000, some 1990, 0, none⟩ 2900).1 = resetDailyStats 2900 ∧
    canApplyNow ⟨10, [⟨"morning", 540, 660⟩], true, 120, true⟩
        ⟨1, 7, some 2000, some 1990, 0, none⟩ 2900 =
      canApplyNow ⟨10, [⟨"morning", 540, 660⟩], true, 120, true⟩
        (resetDailyStats 2900) 2900 ∧
    (resetDailyStats 2900).applications_sent = 0 ∧
    (resetDailyStats 2900).last_application_time = none ∧
    (resetDailyStats 2900).session_start_time = none ∧
    (resetDailyStats 2900).paused_until = none ∧
    ((resetDailyStats 2900).current_date = dateOf 2900 →
      (canApplyNow ⟨10, [⟨"morning", 540, 660⟩], true, 120, true⟩
        (resetDailyStats 2900) 2900).1 = resetDailyStats 2900) ∧
    (∀ s t, (recordApplication s t).applications_sent = s.applications_sent + 1) ∧
    (∀ s t d, (pauseAutomation s t d).applications_sent = s.applications_sent) ∧
    (∀ s, (resumeAutomation s).applications_sent = s.applications_sent) :=
  canApplyNow_new_day_resets ⟨10, [⟨"morning", 540, 660⟩], true, 120, true⟩
    ⟨1, 7, some 2000, some 1990, 0, none⟩ (resetDailyStats 2900) 2900 (by decide)

/-- C3: with the date current, no active pause, the counter at or past the
daily limit and `auto_pause_on_limit` enabled, `can_apply_now` returns
exactly `(false, "Daily application limit reached")`, whatever the time of
day, weekday, configured windows or session duration. -/
theorem canApplyNow_limit_reached (cfg : SchedulerConfig) (stats : DailyStats)
    (now : Nat)
    (hdate : stats.current_date = dateOf now)
    (hpause : ∀ p, stats.paused_until = some p → p ≤ now)
    (hsent : cfg.daily_application_limit ≤ stats.applications_sent)
    (hauto : cfg.auto_pause_on_limit = true) :
    canApplyNow cfg stats now = (stats, false, "Daily application limit reached") := by
  cases hp : stats.paused_until with
  | none => simp [canApplyNow, canApplyChecks, hdate, hp, hsent, hauto]
  | some p =>
    have hple : ¬ now < p := Nat.not_lt.mpr (hpause p hp)
    simp [canApplyNow, canApplyChecks, hdate, hp, hsent, hauto, hple]

/-- C3 witness: `daily_limit = 1`, `sent_today = 1`, checked on a Saturday
night outside every window with a long-expired pause and a session started
long ago. -/
theorem canApplyNow_limit_reached_witness :
    canApplyNow ⟨1, [⟨"morning", 540, 660⟩, ⟨"afternoon", 840, 960⟩, ⟨"evening", 1140, 1260⟩], true, 120, true⟩
        ⟨5, 1, some 7230, some 7210, 0, some 7250⟩ 7300 =
      (⟨5, 1, some 7230, some 7210, 0, some 7250⟩, false, "Daily application limit reached") :=
  canApplyNow_limit_reached _ _ 7300 (by decide)
    (by intro p hp; cases hp; decide) (by decide) rfl

/-- C10: with the date current, no active pause and the counter at or past
the daily limit but `auto_pause_on_limit` disabled, both schedulers'
`can_apply_now` return `(true, "Daily limit reached but auto-pause
disabled")` immediately — the optimal-window, weekday and session-duration
checks are never reached, whatever their configuration. -/
theorem canApplyNow_limit_no_autopause (cfg : SchedulerConfig)
    (stats : DailyStats) (now : Nat)
    (hdate : stats.current_date = dateOf now)
    (hpause : ∀ p, stats.paused_until = some p → p ≤ now)
    (hsent : cfg.daily_application_limit ≤ stats.applications_sent)
    (hauto : cfg.auto_pause_on_limit = false) :
    canApplyNow cfg stats now =
      (stats, true, "Daily limit reached but auto-pause disabled") ∧
    simpleCanApplyNow cfg stats now =
      (stats, true, "Daily limit reached but auto-pause disabled") := by
  cases hp : stats.paused_until with
  | none =>
    constructor
    · simp [canApplyNow, canApplyChecks, hdate, hp, hsent, hauto]
    · simp [simpleCanApplyNow, simpleChecks, hdate, hp, hsent, hauto]
  | some p =>
    have hple : ¬ now < p := Nat.not_lt.mpr (hpause p hp)
    constructor
    · simp [canApplyNow, canApplyChecks, hdate, hp, hsent, hauto, hple]
    · simp [simpleCanApplyNow, simpleChecks, hdate, hp, hsent, hauto, hple]

/-- C10 witness: limit 2 already exceeded, auto-pause off, on a Sunday at
midnight outside every window with a 10-hour-old session: still allowed. -/
theorem canApplyNow_limit_no_autopause_witness :
    canApplyNow ⟨2, [⟨"morning", 540, 660⟩], true, 120, false⟩
        ⟨6, 3, some 9300, some 8700, 0, none⟩ 9310 =
      (⟨6, 3, some 9300, some 8700, 0, none⟩, true,
        "Daily limit reached but auto-pause disabled") ∧
    simpleCanApplyNow ⟨2, [⟨"morning", 540, 660⟩], true, 120, false⟩
        ⟨6, 3, some 9300, some 8700, 0, none⟩ 9310 =
      (⟨6, 3, some 9300, some 8700, 0, none⟩, true,
        "Daily limit reached but auto-pause disabled") :=
  canApplyNow_limit_no_autopause _ _ 9310 (by decide)
    (by intro p hp; cases hp) (by decide) rfl

/-- C8: starting from a freshly reset state, after any sequence of
`record_application` calls on the same calendar date, `get_daily_progress`
reports `applications_sent` equal to the number of calls; and
`record_application` itself unconditionally increments the counter — it is
gated by nothing. -/
theorem dailyProgress_counts_applications (cfg : SchedulerConfig)
    (now0 now1 : Nat) (ts : List Nat)
    (hwin : cfg.optimal_times ≠ [])
    (hdate : dateOf now1 = dateOf now0) :
    ((getDailyProgress cfg (applyAll (resetDailyStats now0) ts) now1).map
        fun r => r.2.applications_sent) = some ts.length ∧
    (∀ s t, (recordApplication s t).applications_sent = s.applications_sent + 1) := by
  refine ⟨?_, fun s t => rfl⟩
  have hd : (applyAll (resetDailyStats now0) ts).current_date = dateOf now1 := by
    rw [applyAll_current_date]
    simp [resetDailyStats, hdate]
  have h1 := canApplyNow_fst_of_date_eq cfg (applyAll (resetDailyStats now0) ts) now1 hd
  obtain ⟨t, ht⟩ := getNextOptimalTime_isSome cfg now1 hwin
  have hsent : (applyAll (resetDailyStats now0) ts).applications_sent = ts.length := by
    rw [applyAll_applications_sent]
    simp [resetDailyStats]
  simp [getDailyProgress, ht, h1, hsent]

/-- C8 witness: three recordings on day 0, queried the same day. -/
theorem dailyProgress_counts_applications_witness :
    ((getDailyProgress ⟨10, [⟨"morning", 540, 660⟩], true, 120, true⟩
        (applyAll (resetDailyStats 0) [10, 20, 30]) 40).map
        fun r => r.2.applications_sent) = some 3 ∧
    (∀ s t, (recordApplication s t).applications_sent = s.applications_sent + 1) :=
  dailyProgress_counts_applications ⟨10, [⟨"morning", 540, 660⟩], true, 120, true⟩
    0 40 [10, 20, 30] (by decide) (by decide)

/-- C1: on every exit path of `run_automation_enhanced` — normal completion,
any early `return` (failed start/login/search, no jobs), the rate-limit
break, or an exception raised at any stage — the `finally` block has run:
any driver the final session still references has been quit, so the run
never returns holding a live browser capability; and a successful
`start_session` really does acquire a live (un-quit) driver mid-run. -/
theorem run_releases_capability (env : RunEnv) (s : Session) :
    (∀ d, ((run_automation_enhanced env s).2).driver = some d → d.quitted = true) ∧
    (env.setupDriver = StageResult.ok () →
      (start_session env s).1.driver = some { quitted := false }) := by
  constructor
  · intro d hd
    have hclose : (run_automation_enhanced env s).2 = close_session (runBody env s).2 := rfl
    rw [hclose] at hd
    unfold close_session at hd
    cases h : ((runBody env s).2).driver with
    | none =>
      rw [h] at hd
      exact absurd hd (by simp [h])
    | some d0 =>
      rw [h] at hd
      simp at hd
      rw [← hd]
  · intro h
    simp [start_session, h]

/-- C1 witness: a run whose login stage raises still ends with the acquired
driver quit. -/
theorem run_releases_capability_witness :
    ((run_automation_enhanced
        ⟨StageResult.ok (), StageResult.raised "boom", StageResult.ok true,
          StageResult.ok []⟩ ⟨none⟩).2).driver = some { quitted := true } ∧
    ({ quitted := true } : Driver).quitted = true :=
  ⟨by decide,
   (run_releases_capability
      ⟨StageResult.ok (), StageResult.raised "boom", StageResult.ok true,
        StageResult.ok []⟩ ⟨none⟩).1 { quitted := true } (by decide)⟩

/-- Exhaustion half of the fallback contract: when every approach fails, the
loop tries them all and `_setup_driver` raises the aggregate error. -/
theorem setup_driver_exhausted {α : Type}
    (l : List (String × AttemptOutcome α))
    (hfail : ∀ x ∈ l, x.2.isFailure = true) :
    setup_driver l =
      Except.error "All ChromeDriver approaches failed - please update Chrome or ChromeDriver" ∧
    attemptedApproaches l = l.map Prod.fst := by
  induction l with
  | nil => exact ⟨rfl, rfl⟩
  | cons x rest ih =>
    obtain ⟨nm, o⟩ := x
    cases o with
    | success r => simp [AttemptOutcome.isFailure] at hfail
    | failure m =>
      have hrest := ih fun y hy => hfail y (List.mem_cons_of_mem _ hy)
      refine ⟨?_, ?_⟩
      · have : setupDriverLoop ((nm, AttemptOutcome.failure m) :: rest) =
            setupDriverLoop rest := rfl
        unfold setup_driver at hrest ⊢
        rw [this]
        exact hrest.1
      · have : attemptedApproaches ((nm, AttemptOutcome.failure m) :: rest) =
            nm :: attemptedApproaches rest := rfl
        rw [this, hrest.2]
        rfl

/-- C7: the driver-acquisition fallback tries the ordered strategies in
order: the first success is returned and no later strategy is touched (the
attempted list stops at it); when every strategy fails, all of them are
attempted and the aggregate exhaustion error is raised. -/
theorem fallback_acquire_spec {α : Type}
    (pre post : List (String × AttemptOutcome α)) (nm : String) (d : α)
    (hpre : ∀ x ∈ pre, x.2.isFailure = true) :
    setup_driver (pre ++ (nm, AttemptOutcome.success d) :: post) = Except.ok d ∧
    attemptedApproaches (pre ++ (nm, AttemptOutcome.success d) :: post) =
      pre.map Prod.fst ++ [nm] ∧
    (∀ l : List (String × AttemptOutcome α), (∀ x ∈ l, x.2.isFailure = true) →
      setup_driver l =
        Except.error "All ChromeDriver approaches failed - please update Chrome or ChromeDriver" ∧
      attemptedApproaches l = l.map Prod.fst) := by
  refine ⟨?_, ?_, fun l hl => setup_driver_exhausted l hl⟩
  · induction pre with
    | nil => rfl
    | cons x rest ih =>
      obtain ⟨n0, o⟩ := x
      cases o with
      | success r => simp [AttemptOutcome.isFailure] at hpre
      | failure m =>
        have := ih fun y hy => hpre y (List.mem_cons_of_mem _ hy)
        unfold setup_driver at this ⊢
        exact this
  · induction pre with
    | nil => rfl
    | cons x rest ih =>
      obtain ⟨n0, o⟩ := x
      cases o with
      | success r => simp [AttemptOutcome.isFailure] at hpre
      | failure m =>
        have := ih fun y hy => hpre y (List.mem_cons_of_mem _ hy)
        have hstep : attemptedApproaches
            (((n0, AttemptOutcome.failure m) :: rest) ++
              (nm, AttemptOutcome.success d) :: post) =
            n0 :: attemptedApproaches (rest ++ (nm, AttemptOutcome.success d) :: post) := rfl
        rw [hstep, this]
        rfl

/-- C7 witness: two failing approaches then a succeeding one, and the
all-fail instance, mirroring the three ChromeDriver approaches. -/
theorem fallback_acquire_spec_witness :
    setup_driver ([("webdriver-manager (latest)", AttemptOutcome.failure "a"),
        ("no service (selenium default)", AttemptOutcome.failure "b")] ++
        ("local chromedriver", AttemptOutcome.success 42) :: []) = Except.ok 42 ∧
    attemptedApproaches ([("webdriver-manager (latest)", AttemptOutcome.failure "a"),
        ("no service (selenium default)", AttemptOutcome.failure "b")] ++
        ("local chromedriver", AttemptOutcome.success 42) :: []) =
      ([("webdriver-manager (latest)", AttemptOutcome.failure "a"),
        ("no service (selenium default)", AttemptOutcome.failure "b")] :
          List (String × AttemptOutcome Nat)).map Prod.fst ++
        ["local chromedriver"] ∧
    (∀ l : List (String × AttemptOutcome Nat), (∀ x ∈ l, x.2.isFailure = true) →
      setup_driver l =
        Except.error "All ChromeDriver approaches failed - please update Chrome or ChromeDriver" ∧
      attemptedApproaches l = l.map Prod.fst) :=
  fallback_acquire_spec
    [("webdriver-manager (latest)", AttemptOutcome.failure "a"),
      ("no service (selenium default)", AttemptOutcome.failure "b")]
    [] "local chromedriver" 42 (by decide)

/-- C4 counterexample: the dataclass's `experience_years` is a signed,
unvalidated `int`; at `-100` years against a posting extracting a ten-year
minimum the experience sub-score is `-100/10*100 = -1000` and the weighted
total is `-220`, so the claimed lower bound of 0 fails. -/
theorem match_score_negative_cex :
    (calculate_match_score negativeYearsProfile
        (extract_job_requirements tenYearsDescription)).1 = -220 ∧
    ¬ 0 ≤ (calculate_match_score negativeYearsProfile
        (extract_job_requirements tenYearsDescription)).1 := by
  have hskills : (extract_job_requirements tenYearsDescription).skills =
      [("programming", ["r"]), ("data_science", ["r"]),
       ("web_development", []), ("cloud", []), ("databases", []),
       ("soft_skills", [])] := by decide
  have hexp : (extract_job_requirements tenYearsDescription).min_experience = 10 := by
    decide
  have husers : negativeYearsProfile.skills.map toLowerStr = [] := by decide
  have hpct : skillMatchPercentageOf negativeYearsProfile
      (extract_job_requirements tenYearsDescription) = 0 := by
    unfold skillMatchPercentageOf
    rw [hskills, husers]
    simp [skillFold]
  have hexpscore : (experienceScore negativeYearsProfile.experience_years
      (extract_job_requirements tenYearsDescription).min_experience).1 = -1000 := by
    rw [hexp]
    norm_num [experienceScore, negativeYearsProfile]
  have hedu : (educationScore negativeYearsProfile.education
      (extract_job_requirements tenYearsDescription).education_required).1 = 100 := by
    decide
  have hloc : (locationScore (extract_job_requirements tenYearsDescription)
      negativeYearsProfile).1 = 75 := by decide
  have hind : (industryScore (extract_job_requirements tenYearsDescription)
      negativeYearsProfile).1 = 75 := by decide
  have hmain : (calculate_match_score negativeYearsProfile
      (extract_job_requirements tenYearsDescription)).1 = -220 := by
    unfold calculate_match_score
    dsimp only
    rw [hpct, hexpscore, hedu, hloc, hind]
    norm_num [pyRound2, roundHalfEven, round_eq]
  refine ⟨hmain, ?_⟩
  rw [hmain]
  norm_num

/-- C4 (amended): for every user profile and every posting description the
total match score is at most 100; and whenever the profile's
`experience_years` is non-negative (the only unvalidated signed input) the
score is also at least 0, so the claimed 0..100 range holds exactly on
non-negative experience values. -/
theorem match_score_range_amended (profile : UserProfile) (desc : String) :
    (calculate_match_score profile (extract_job_requirements desc)).1 ≤ 100 ∧
    (0 ≤ profile.experience_years →
      0 ≤ (calculate_match_score profile (extract_job_requirements desc)).1) :=
  ⟨calculate_match_score_le_100 profile (extract_job_requirements desc),
   fun hy => calculate_match_score_nonneg profile (extract_job_requirements desc) hy⟩

/-- C4 witness: a four-year profile on the empty description satisfies both
bounds. -/
theorem match_score_range_amended_witness :
    (calculate_match_score
        ⟨["python"], 4, [], [], [], [], none, false, ""⟩
        (extract_job_requirements "")).1 ≤ 100 ∧
    0 ≤ (calculate_match_score
        ⟨["python"], 4, [], [], [], [], none, false, ""⟩
        (extract_job_requirements "")).1 :=
  ⟨(match_score_range_amended
      ⟨["python"], 4, [], [], [], [], none, false, ""⟩ "").1,
   (match_score_range_amended
      ⟨["python"], 4, [], [], [], [], none, false, ""⟩ "").2 (by decide)⟩

/-- When no category extracted any required skill, the skills loop
accumulates nothing. -/
theorem skillFold_all_empty (userSkills : List String)
    (cats : List (String × List String)) (h : ∀ p ∈ cats, p.2 = []) :
    skillFold userSkills cats = (0, 0, [], []) := by
  induction cats with
  | nil => rfl
  | cons c rest ih =>
    have hc : c.2 = [] := h c (List.mem_cons_self _ _)
    obtain ⟨cat, required⟩ := c
    simp only at hc
    subst hc
    have hrest := ih fun p hp => h p (List.mem_cons_of_mem _ hp)
    simp [skillFold, hrest]

/-- C5 counterexample: the empty posting description yields no required
skill keyword in any taxonomy category, yet the skills sub-score entering
the weighted total is 0 — not 100 as claimed. -/
theorem skills_subscore_cex :
    ((extract_job_requirements "").skills.all fun p => p.2.isEmpty) = true ∧
    skillMatchPercentageOf
        ⟨["python", "sql"], 4, [], [], [], [], none, false, ""⟩
        (extract_job_requirements "") = 0 ∧
    skillMatchPercentageOf
        ⟨["python", "sql"], 4, [], [], [], [], none, false, ""⟩
        (extract_job_requirements "") ≠ 100 := by
  decide

/-- C5 (amended): for every profile, when the posting description yields no
required skill keyword in any taxonomy category, the skills sub-score that
enters the weighted total is 0 (the `total_skills > 0` guard falls through
to its zero branch). -/
theorem skills_subscore_zero_when_none_required (profile : UserProfile)
    (desc : String)
    (h : ∀ p ∈ (extract_job_requirements desc).skills, p.2 = []) :
    skillMatchPercentageOf profile (extract_job_requirements desc) = 0 := by
  unfold skillMatchPercentageOf
  rw [skillFold_all_empty _ _ h]
  rfl

/-- C5 witness: the empty description requires nothing, and the sub-score
for a sample profile is 0. -/
theorem skills_subscore_zero_when_none_required_witness :
    skillMatchPercentageOf
        ⟨["python", "sql"], 4, [], [], [], [], none, false, ""⟩
        (extract_job_requirements "") = 0 :=
  skills_subscore_zero_when_none_required _ "" (by decide)

/-- C6 counterexample: the Scenario A description does require python and
java (programming) with a stated "3 years", but because keyword matching is
by raw substring the one-letter keyword "r" (inside "years") is extracted
too, so `missing_skills` is not exactly `["java"]`. -/
theorem scenarioA_missing_skills_cex :
    (extract_job_requirements scenarioADescription).skills.head? =
      some ("programming", ["python", "java", "r"]) ∧
    (extract_job_requirements scenarioADescription).min_experience = 3 ∧
    (calculate_match_score scenarioAProfile
        (extract_job_requirements scenarioADescription)).2.2 ≠ ["java"] := by
  decide

/-- C6 (amended): for the Scenario A profile and description, substring
matching also extracts "r" in both the programming and data_science
categories, so the skill sub-score reflects 2 of 5 required skills matched
(sub-score 40), the experience sub-score is 100, `missing_skills` is
`["java", "r", "r"]`, and the total score is 71. -/
theorem scenarioA_evaluation :
    (extract_job_requirements scenarioADescription).skills =
      [("programming", ["python", "java", "r"]),
       ("data_science", ["r", "python"]),
       ("web_development", []), ("cloud", []), ("databases", []),
       ("soft_skills", [])] ∧
    (extract_job_requirements scenarioADescription).min_experience = 3 ∧
    skillMatchPercentageOf scenarioAProfile
        (extract_job_requirements scenarioADescription) = 40 ∧
    (experienceScore scenarioAProfile.experience_years
        (extract_job_requirements scenarioADescription).min_experience).1 = 100 ∧
    (calculate_match_score scenarioAProfile
        (extract_job_requirements scenarioADescription)).2.2 = ["java", "r", "r"] ∧
    (calculate_match_score scenarioAProfile
        (extract_job_requirements scenarioADescription)).1 = 71 := by
  have hskills : (extract_job_requirements scenarioADescription).skills =
      [("programming", ["python", "java", "r"]),
       ("data_science", ["r", "python"]),
       ("web_development", []), ("cloud", []), ("databases", []),
       ("soft_skills", [])] := by decide
  have hexp : (extract_job_requirements scenarioADescription).min_experience = 3 := by
    decide
  have husers : scenarioAProfile.skills.map toLowerStr = ["python", "sql"] := by
    decide
  have hpct : skillMatchPercentageOf scenarioAProfile
      (extract_job_requirements scenarioADescription) = 40 := by
    unfold skillMatchPercentageOf
    rw [hskills, husers]
    simp [skillFold]
    norm_num
  have hexpscore : (experienceScore scenarioAProfile.experience_years
      (extract_job_requirements scenarioADescription).min_experience).1 = 100 := by
    decide
  have hmiss : (calculate_match_score scenarioAProfile
      (extract_job_requirements scenarioADescription)).2.2 = ["java", "r", "r"] := by
    decide
  have hedu : (educationScore scenarioAProfile.education
      (extract_job_requirements scenarioADescription).education_required).1 = 100 := by
    decide
  have hloc : (locationScore (extract_job_requirements scenarioADescription)
      scenarioAProfile).1 = 75 := by decide
  have hind : (industryScore (extract_job_requirements scenarioADescription)
      scenarioAProfile).1 = 75 := by decide
  have hscore : (calculate_match_score scenarioAProfile
      (extract_job_requirements scenarioADescription)).1 = 71 := by
    unfold calculate_match_score
    dsimp only
    rw [hpct, hexpscore, hedu, hloc, hind]
    norm_num [pyRound2, roundHalfEven, round_eq]
  exact ⟨hskills, hexp, hpct, hexpscore, hmiss, hscore⟩

/-- C9 counterexample: for the empty description no technical category has
any required skill, yet the recommendation list still contains the fixed
portfolio hint — the source tests the category keys of the skills dict, and
the extractor always emits every key. -/
theorem recommendations_portfolio_cex :
    ((extract_job_requirements "").skills.all fun p => p.2.isEmpty) = true ∧
    "Ensure your portfolio/GitHub profile is up to date" ∈
      generate_recommendations
        ⟨["python", "sql"], 4, [], [], [], [], none, false, ""⟩
        (extract_job_requirements "")
        ((calculate_match_score
            ⟨["python", "sql"], 4, [], [], [], [], none, false, ""⟩
            (extract_job_requirements "")).2.2) := by
  decide

/-- C9 (amended): for requirements produced by the extractor, the
recommendation list always includes the fixed portfolio hint (the skills
dict always carries the technical category keys, whether or not any skill
was required), and the fixed networking hint is always its last element. -/
theorem recommendations_portfolio_networking (profile : UserProfile)
    (desc : String) (missingSkills : List String) :
    "Ensure your portfolio/GitHub profile is up to date" ∈
      generate_recommendations profile (extract_job_requirements desc) missingSkills ∧
    (generate_recommendations profile (extract_job_requirements desc)
        missingSkills).getLast? =
      some "Research the company and connect with current employees on LinkedIn" := by
  have hport : ((extract_job_requirements desc).skills.any fun c =>
      (["programming", "web_development", "data_science"] : List String).contains c.1) =
        true := by
    simp [extract_job_requirements, skill_keywords]
  constructor
  · unfold generate_recommendations
    rw [if_pos hport]
    simp
  · unfold generate_recommendations
    rw [List.getLast?_append_cons]
    rfl

end LIAuto
